import Mathlib

/-!
# NDPluginBlur: a shallow embedding of `blurApp/blurSrc/NDPluginBlur.cpp`

The development embeds the three functions of the plugin that carry decision
logic, `doBlur`, `NDPluginBlur::blur` and `NDPluginBlur::processCallbacks`,
and proves properties of them.

Modelling conventions.

* `int` is a 32-bit two's-complement integer, represented by an `Int` in the
  range `[-2^31, 2^31)`; arithmetic that can leave the range is wrapped with
  `wrap32`.  `size_t` is a 64-bit unsigned integer, represented by a `Nat`
  with products reduced modulo `2^64` (`sizeMul`).
* `%` on `int` is the C++ truncating remainder, `Int.tmod`.
* A raw buffer (`pData`, `cv::Mat::data`) is a list of bytes; `memcpy` replaces
  a prefix of the destination by the same-length prefix of the source.
* The plugin object is an explicit state `Plugin`: the integer parameter
  library, the driver lock as a boolean, the held array `pArrays[0]`, and a
  chronological trace of the observable effects (messages, parameter writes,
  callbacks) together with markers for the calls of `blur` and `doBlur`.
* OpenCV, the NDArray pool and the base class are collaborators outside the
  repository; they are taken as parameters (`OpenCV`, `Env`).  A smoothing
  call returns `Except.error what` when it throws `cv::Exception` and
  `Except.ok outImg` otherwise.
* Execution is sequential: no other thread changes the parameters while the
  lock is released.
* Not modelled: allocation failure in the pool or in OpenCV, a failing
  `getIntegerParam`, exceptions other than `cv::Exception`, and exceptions
  thrown outside the `try` blocks.  `memcpy` and the indexing of `dims` are
  meant for in-bounds arguments; the statements about buffers carry the sizes
  as hypotheses.
-/

namespace NDPluginBlur

/-! ## Machine integers -/

/-- Reduction of an integer to the 32-bit two's-complement range (`int`). -/
def wrap32 (x : Int) : Int := (x + 2147483648) % 4294967296 - 2147483648

/-- Membership in the range of `int`. -/
def isInt32 (x : Int) : Prop := -2147483648 ≤ x ∧ x ≤ 2147483647

instance (x : Int) : Decidable (isInt32 x) := by unfold isInt32; infer_instance

/-- Product of two `size_t` values (64-bit, wraps). -/
def sizeMul (a b : Nat) : Nat := (a * b) % 18446744073709551616

/-- The value of `sizeof(float)`. -/
def sizeofFloat : Nat := 4

/-! ## Data model -/

/-- One byte of a raw buffer. -/
abbrev Byte := Nat

/-- The enumeration `NDPluginBlurType_` (lines 35-42); `blurType` is an `int`. -/
def None : Int := 0
/-- Enumerator `NormalizedBlock`. -/
def NormalizedBlock : Int := 1
/-- Enumerator `Gaussian`. -/
def Gaussian : Int := 2
/-- Enumerator `Median`. -/
def Median : Int := 3
/-- Enumerator `Bilateral`. -/
def Bilateral : Int := 4

/-- The fields of `NDArray` the plugin reads or writes. `dims` holds
`dims[i].size`; `pAttributeList` is carried opaquely. -/
structure NDArray where
  ndims : Int
  dims : List Nat
  dataType : Int
  pData : List Byte
  pAttributeList : List Nat
deriving DecidableEq

/-- The fields of `NDArrayInfo_t` read by `doBlur`. -/
structure NDArrayInfo_t where
  nElements : Nat
  bytesPerElement : Nat
  xDim : Nat
  yDim : Nat
deriving DecidableEq

/-- A single-channel `CV_32F` `cv::Mat`: its shape and its data bytes. -/
structure Mat where
  rows : Int
  cols : Int
  data : List Byte
deriving DecidableEq

/-- The four OpenCV entry points used by `doBlur`, and the indeterminate
contents of a freshly constructed `cv::Mat(rows, cols, CV_32F)`.  The `double`
arguments of `GaussianBlur` and `bilateralFilter` are integer literals in the
source and are passed as integers. -/
structure OpenCV where
  fresh : Int → Int → List Byte
  blur : Mat → Int × Int → Int × Int → Except String Mat
  GaussianBlur : Mat → Int × Int → Int → Int → Except String Mat
  medianBlur : Mat → Int → Except String Mat
  bilateralFilter : Mat → Int → Int → Int → Except String Mat

/-- The integer parameters of the parameter library: the three created by the
plugin's constructor, the base-class `NDDataType`, and all the others. -/
inductive Param where
  | NDPluginBlurKernelWidth
  | NDPluginBlurKernelHeight
  | NDPluginBlurBlurType_
  | NDDataType
  | other (n : Nat)
deriving DecidableEq

/-- The functions of the plugin, as they appear in messages and call markers. -/
inductive Fn where
  | doBlur
  | processCallbacks
  | blur
deriving DecidableEq

/-- Observable effects and call markers, in the order they happen. -/
inductive Event where
  /-- Base-class `NDPluginDriver::processCallbacks(pArray)`. -/
  | baseProcessCallbacks
  /-- Release of the held array, `pArrays[0]->release()`. -/
  | release
  /-- An `asynPrint(pasynUserSelf, ASYN_TRACE_ERROR, ...)` issued by a function. -/
  | asynError (fn : Fn)
  /-- The `printf` in the `catch (cv::Exception &e)` handler of the given mode. -/
  | cvException (blurType : Int) (what : String)
  /-- A write `setIntegerParam(p, v)`. -/
  | setIntegerParam (p : Param) (v : Int)
  /-- Entry into `NDPluginBlur::blur`. -/
  | blurCall
  /-- Call `doBlur(.., kernelWidth, kernelHeight, blurType)`. -/
  | doBlurCall (kernelWidth kernelHeight blurType : Int)
  /-- The output frame, `doCallbacksGenericPointer(blurredArray, NDArrayData, 0)`. -/
  | doCallbacksGenericPointer (a : NDArray)
  /-- The call `callParamCallbacks()`. -/
  | callParamCallbacks
deriving DecidableEq

/-- The plugin object. -/
structure Plugin where
  params : Param → Int
  locked : Bool
  pArrays0 : Option NDArray
  trace : List Event

/-- Collaborators outside the repository: OpenCV, `NDArray::getInfo`, the data
conversion of `NDArrayPool::convert`, `NDPluginDriver::getAttributes`, and the
enumerator `NDFloat32` of `NDDataType_t`. -/
structure Env where
  cv : OpenCV
  getInfo : NDArray → NDArrayInfo_t
  convertData : Int → Int → List Byte → List Byte
  getAttributes : List Nat → List Nat
  NDFloat32 : Int

/-! ## Primitive operations -/

/-- The call `memcpy(dst, src, n)` on buffers with at least `n` bytes each: the first
`n` bytes of `dst` are replaced by the first `n` bytes of `src`. -/
def memcpy (dst src : List Byte) (n : Nat) : List Byte := src.take n ++ dst.drop n

/-- The call `getIntegerParam(p, &v)`. -/
def getIntegerParam (s : Plugin) (p : Param) : Int := s.params p

/-- The call `setIntegerParam(p, v)`: stores the value and records the write. -/
def setIntegerParam (s : Plugin) (p : Param) (v : Int) : Plugin :=
  { s with params := fun q => if q = p then v else s.params q,
           trace := s.trace ++ [Event.setIntegerParam p v] }

/-- Append an effect to the trace. -/
def emit (s : Plugin) (e : Event) : Plugin := { s with trace := s.trace ++ [e] }

/-- The call `this->lock()`. -/
def lock (s : Plugin) : Plugin := { s with locked := true }

/-- The call `this->unlock()`. -/
def unlock (s : Plugin) : Plugin := { s with locked := false }

/-- The call `pNDArrayPool->copy(pArray, NULL, 1)`: a duplicate with its own storage. -/
def copy (pArray : NDArray) : NDArray := pArray

/-- The call `pNDArrayPool->convert(pIn, &pOut, dataTypeOut)`: a new array with the
dimensions and attributes of `pIn` and its data converted to `dataTypeOut`. -/
def convert (env : Env) (pIn : NDArray) (dataTypeOut : Int) : NDArray :=
  { pIn with dataType := dataTypeOut,
             pData := env.convertData pIn.dataType dataTypeOut pIn.pData }

/-! ## `doBlur` (lines 45-142) -/

/-- The byte count of the two initial `memcpy` calls (lines 70-71) and of the
copies of the result: `nElements * sizeof(float)`. -/
def copyBytes (arrayInfo : NDArrayInfo_t) : Nat := sizeMul arrayInfo.nElements sizeofFloat

/-- The image `inImg` after line 71: `cv::Mat((int) numRows, (int) rowSize, CV_32F)`
with the input bytes copied over the start of its data. -/
def inImgOf (cv : OpenCV) (inArray : NDArray) (arrayInfo : NDArrayInfo_t) : Mat :=
  let rowSize := inArray.dims.getD arrayInfo.xDim 0
  let numRows := inArray.dims.getD arrayInfo.yDim 0
  let rows := wrap32 (numRows : Int)
  let cols := wrap32 (rowSize : Int)
  { rows := rows, cols := cols,
    data := memcpy (cv.fresh rows cols) inArray.pData (copyBytes arrayInfo) }

/-- What `doBlur` leaves behind: the two arrays and the lines it printed. -/
structure DoBlurResult where
  inArray : NDArray
  outArray : NDArray
  printed : List Event

/-- The body of one `try { filter; memcpy } catch { printf }` block: `baseline`
is the output buffer as left by line 70. -/
def tryFilter (blurType : Int) (n : Nat) (baseline : List Byte)
    (r : Except String Mat) : List Byte × List Event :=
  match r with
  | Except.ok outImg => (memcpy baseline outImg.data n, [])
  | Except.error what => (baseline, [Event.cvException blurType what])

/-- The function `doBlur(inArray, outArray, arrayInfo, kernelWidth, kernelHeight, blurType)`. -/
def doBlur (cv : OpenCV) (inArray outArray : NDArray) (arrayInfo : NDArrayInfo_t)
    (kernelWidth kernelHeight blurType : Int) : DoBlurResult :=
  let n := copyBytes arrayInfo
  let inImg := inImgOf cv inArray arrayInfo
  let outData := memcpy outArray.pData inArray.pData n
  let r : List Byte × List Event :=
    if blurType = None then (outData, [])
    else if blurType = NormalizedBlock then
      tryFilter blurType n outData (cv.blur inImg (kernelWidth, kernelHeight) (-1, -1))
    else if blurType = Gaussian then
      tryFilter blurType n outData (cv.GaussianBlur inImg (kernelWidth, kernelHeight) 0 0)
    else if blurType = Median then
      tryFilter blurType n outData (cv.medianBlur inImg kernelWidth)
    else if blurType = Bilateral then
      tryFilter blurType n outData (cv.bilateralFilter inImg kernelWidth 5 5)
    else (outData, [])
  { inArray := inArray, outArray := { outArray with pData := r.1 }, printed := r.2 }

/-! ## `NDPluginBlur::blur` (lines 200-230) -/

/-- The result of `blur`: the plugin state and the output array. -/
structure BlurResult where
  state : Plugin
  outArray : NDArray

/-- The method `NDPluginBlur::blur(inArray, outArray, arrayInfo)`. -/
def blur (env : Env) (s : Plugin) (inArray outArray : NDArray)
    (arrayInfo : NDArrayInfo_t) : BlurResult :=
  let s := emit s Event.blurCall
  let kernelWidth := getIntegerParam s Param.NDPluginBlurKernelWidth
  let kernelHeight := getIntegerParam s Param.NDPluginBlurKernelHeight
  let blurType := getIntegerParam s Param.NDPluginBlurBlurType_
  if kernelWidth ≤ 0 ∧ kernelHeight ≤ 0 then
    { state := emit s (Event.asynError Fn.blur), outArray := outArray }
  else
    let kw := if kernelWidth.tmod 2 = 0 then wrap32 (kernelWidth + 1) else kernelWidth
    let s := if kernelWidth.tmod 2 = 0 then
        setIntegerParam s Param.NDPluginBlurKernelWidth kw else s
    let kh := if kernelHeight.tmod 2 = 0 then wrap32 (kernelHeight + 1) else kernelHeight
    let s := if kernelHeight.tmod 2 = 0 then
        setIntegerParam s Param.NDPluginBlurKernelHeight kh else s
    let s := emit s (Event.doBlurCall kw kh blurType)
    let r := doBlur env.cv inArray outArray arrayInfo kw kh blurType
    { state := { s with trace := s.trace ++ r.printed }, outArray := r.outArray }

/-! ## `NDPluginBlur::processCallbacks` (lines 148-196) -/

/-- The method `NDPluginBlur::processCallbacks(pArray)`. -/
def processCallbacks (env : Env) (s : Plugin) (pArray : NDArray) : Plugin :=
  let s := emit s Event.baseProcessCallbacks
  let arrayInfo := env.getInfo pArray
  let s := if s.pArrays0.isSome then { emit s Event.release with pArrays0 := none } else s
  let s := unlock s
  let s := { s with pArrays0 := some (copy pArray) }
  -- `blurredArray = this->pArrays[0]` (line 172) is overwritten by line 175
  let pArray := convert env pArray env.NDFloat32
  let blurredArray := convert env pArray env.NDFloat32
  if pArray.ndims = 1 ∨ pArray.ndims = 2 then
    let r := blur env s pArray blurredArray arrayInfo
    let s := lock r.state
    let dataType := getIntegerParam s Param.NDDataType
    let blurredArray := convert env r.outArray dataType
    let blurredArray :=
      { blurredArray with pAttributeList := env.getAttributes blurredArray.pAttributeList }
    let s := emit s (Event.doCallbacksGenericPointer blurredArray)
    emit s Event.callParamCallbacks
  else
    emit s (Event.asynError Fn.processCallbacks)

/-! ## Observations on traces -/

/-- The events appended to the trace between two states. -/
def newEvents (before after : Plugin) : List Event :=
  after.trace.drop before.trace.length

/-- The argument triples of the `doBlur` calls in a trace. -/
def doBlurCalls (t : List Event) : List (Int × Int × Int) :=
  t.filterMap fun e =>
    match e with
    | Event.doBlurCall w h b => some (w, h, b)
    | _ => none

/-- The parameter writes in a trace. -/
def paramWrites (t : List Event) : List (Param × Int) :=
  t.filterMap fun e =>
    match e with
    | Event.setIntegerParam p v => some (p, v)
    | _ => none

/-- The output frames handed to `doCallbacksGenericPointer` in a trace. -/
def outputFrames (t : List Event) : List NDArray :=
  t.filterMap fun e =>
    match e with
    | Event.doCallbacksGenericPointer a => some a
    | _ => none

/-- The functions that reported an error through `asynPrint` in a trace. -/
def asynErrors (t : List Event) : List Fn :=
  t.filterMap fun e =>
    match e with
    | Event.asynError f => some f
    | _ => none

/-- The number of entries into `blur` in a trace. -/
def blurCalls (t : List Event) : Nat := t.count Event.blurCall

/-- The `cv::Exception` messages printed in a trace, with the mode that failed. -/
def cvExceptions (t : List Event) : List (Int × String) :=
  t.filterMap fun e =>
    match e with
    | Event.cvException b what => some (b, what)
    | _ => none

/-- The kernel size `blur` passes on for a stored size (lines 217-226). -/
def oddKernel (k : Int) : Int := if k.tmod 2 = 0 then wrap32 (k + 1) else k

/-! ## Parts of the functions, named for the statements -/

/-- The writes `blur` performs for one kernel parameter. -/
def kernelWrite (p : Param) (k : Int) : List Event :=
  if k.tmod 2 = 0 then [Event.setIntegerParam p (oddKernel k)] else []

/-- The smoothing call `doBlur` makes for a mode, if the mode is one of the four
filters (lines 82, 97, 112, 127). -/
def filterCall (cv : OpenCV) (inImg : Mat) (kernelWidth kernelHeight blurType : Int) :
    Option (Except String Mat) :=
  if blurType = NormalizedBlock then
    some (cv.blur inImg (kernelWidth, kernelHeight) (-1, -1))
  else if blurType = Gaussian then
    some (cv.GaussianBlur inImg (kernelWidth, kernelHeight) 0 0)
  else if blurType = Median then
    some (cv.medianBlur inImg kernelWidth)
  else if blurType = Bilateral then
    some (cv.bilateralFilter inImg kernelWidth 5 5)
  else none

/-- The plugin state when `processCallbacks` reaches its `switch` (line 177). -/
def atSwitch (s : Plugin) (pArray : NDArray) : Plugin :=
  { params := s.params,
    locked := false,
    pArrays0 := some (copy pArray),
    trace := s.trace ++ ([Event.baseProcessCallbacks] ++
      if s.pArrays0.isSome then [Event.release] else []) }

/-- The frame `processCallbacks` emits for the array `blur` leaves behind
(lines 190-194). -/
def emitted (env : Env) (dataType : Int) (blurred : NDArray) : NDArray :=
  { convert env blurred dataType with
    pAttributeList := env.getAttributes (convert env blurred dataType).pAttributeList }

/-! ## Concrete inputs -/

/-- An OpenCV in which every smoothing call throws. -/
def cvFailing : OpenCV :=
  { fresh := fun _ _ => [0, 0, 0, 0, 0, 0, 0, 0]
    blur := fun _ _ _ => Except.error "bad kernel"
    GaussianBlur := fun _ _ _ _ => Except.error "bad kernel"
    medianBlur := fun _ _ => Except.error "bad kernel"
    bilateralFilter := fun _ _ _ _ => Except.error "bad kernel" }

/-- An OpenCV in which every smoothing call succeeds and returns an image of
the input's shape whose bytes are all equal to the width argument. -/
def cvConst : OpenCV :=
  { fresh := fun _ _ => [0, 0, 0, 0, 0, 0, 0, 0]
    blur := fun m k _ => Except.ok { m with data := m.data.map fun _ => k.1.toNat }
    GaussianBlur := fun m k _ _ => Except.ok { m with data := m.data.map fun _ => k.1.toNat }
    medianBlur := fun m k => Except.ok { m with data := m.data.map fun _ => k.toNat }
    bilateralFilter := fun m d _ _ => Except.ok { m with data := m.data.map fun _ => d.toNat } }

/-- A `getInfo` for the concrete inputs, after `NDArray::getInfo` of areaDetector:
the element count is the product of the dimensions, the element size follows
the type (0, 1: 8-bit integers; 2, 3: 16-bit; 4, 5: 32-bit; 6: float32; 7:
float64), the x axis is dimension 0 and the y axis dimension 1 when there is
one. -/
def demoInfo (a : NDArray) : NDArrayInfo_t :=
  { nElements := (a.dims.take a.ndims.toNat).prod
    bytesPerElement :=
      if a.dataType = 0 ∨ a.dataType = 1 then 1
      else if a.dataType = 2 ∨ a.dataType = 3 then 2
      else if a.dataType = 7 then 8
      else 4
    xDim := 0
    yDim := if 1 < a.ndims then 1 else 0 }

/-- An environment around a given OpenCV; conversions keep the bytes, which is
faithful for the float32 frames used below (type 6). -/
def demoEnv (cv : OpenCV) : Env :=
  { cv := cv
    getInfo := demoInfo
    convertData := fun _ _ d => d
    getAttributes := fun l => l
    NDFloat32 := 6 }

/-- A plugin with the lock held, an empty trace, nothing held, the given kernel
width, height and blur type, and output type 6. -/
def pluginWith (w h b : Int) : Plugin :=
  { params := fun p =>
      match p with
      | Param.NDPluginBlurKernelWidth => w
      | Param.NDPluginBlurKernelHeight => h
      | Param.NDPluginBlurBlurType_ => b
      | Param.NDDataType => 6
      | Param.other _ => 0
    locked := true
    pArrays0 := none
    trace := [] }

/-- A one-dimensional float32 frame with two samples. -/
def frame1D : NDArray :=
  { ndims := 1, dims := [2], dataType := 6,
    pData := [0, 0, 128, 63, 0, 0, 0, 64], pAttributeList := [7] }

/-- A two-dimensional float32 frame of shape 2 x 1. -/
def frame2D : NDArray :=
  { ndims := 2, dims := [2, 1], dataType := 6,
    pData := [0, 0, 128, 63, 0, 0, 0, 64], pAttributeList := [7] }

/-- A three-dimensional float32 frame of shape 2 x 1 x 1. -/
def frame3D : NDArray :=
  { ndims := 3, dims := [2, 1, 1], dataType := 6,
    pData := [0, 0, 128, 63, 0, 0, 0, 64], pAttributeList := [7] }

/-- An output buffer of the size of `frame1D` with other contents. -/
def scratch : NDArray :=
  { ndims := 1, dims := [2], dataType := 6,
    pData := [9, 9, 9, 9, 9, 9, 9, 9], pAttributeList := [7] }

/-- A one-dimensional frame with a single 8-bit sample (type 0) of value 5. -/
def frameInt8 : NDArray :=
  { ndims := 1, dims := [1], dataType := 0, pData := [5], pAttributeList := [] }

/-- The float32 working form of `frameInt8`: the four bytes of `5.0f`. -/
def workInt8 : NDArray :=
  { ndims := 1, dims := [1], dataType := 6, pData := [0, 0, 160, 64], pAttributeList := [] }

/-- An output buffer of the size of `workInt8` with other contents. -/
def scratchInt8 : NDArray :=
  { ndims := 1, dims := [1], dataType := 6, pData := [9, 9, 9, 9], pAttributeList := [] }

/-- The image `cvConst` returns for `frame2D` and width 3. -/
def constImage : Mat := { rows := 1, cols := 2, data := [3, 3, 3, 3, 3, 3, 3, 3] }

/-! ## Arithmetic lemmas -/

theorem tmod_two_eq_zero_iff (x : Int) : x.tmod 2 = 0 ↔ x % 2 = 0 :=
  ⟨fun h => Int.emod_eq_zero_of_dvd (Int.dvd_of_tmod_eq_zero h),
   fun h => Int.tmod_eq_zero_of_dvd (Int.dvd_of_emod_eq_zero h)⟩

theorem wrap32_of_isInt32 {x : Int} (h : isInt32 x) : wrap32 x = x := by
  unfold isInt32 at h
  unfold wrap32
  omega

theorem oddKernel_of_odd {k : Int} (h : k % 2 = 1) : oddKernel k = k := by
  have : ¬ k.tmod 2 = 0 := by rw [tmod_two_eq_zero_iff]; omega
  simp [oddKernel, this]

theorem oddKernel_of_even {k : Int} (hk : isInt32 k) (h : k % 2 = 0) :
    oddKernel k = k + 1 := by
  have h0 : k.tmod 2 = 0 := (tmod_two_eq_zero_iff k).2 h
  have hr : isInt32 (k + 1) := by unfold isInt32 at *; omega
  simp [oddKernel, h0, wrap32_of_isInt32 hr]

theorem oddKernel_spec {k : Int} (hk : isInt32 k) :
    (oddKernel k) % 2 = 1 ∧ isInt32 (oddKernel k) ∧ k ≤ oddKernel k ∧
      (k % 2 = 1 → oddKernel k = k) ∧ (k % 2 = 0 → oddKernel k = k + 1) := by
  rcases Int.emod_two_eq k with h | h
  · rw [oddKernel_of_even hk h]
    unfold isInt32 at *
    omega
  · rw [oddKernel_of_odd h]
    unfold isInt32 at *
    omega

/-! ## Lemmas on `blur` -/

theorem blur_reject (env : Env) (s : Plugin) (inArray outArray : NDArray)
    (arrayInfo : NDArrayInfo_t)
    (h : s.params Param.NDPluginBlurKernelWidth ≤ 0 ∧
      s.params Param.NDPluginBlurKernelHeight ≤ 0) :
    blur env s inArray outArray arrayInfo =
      { state := { s with trace := s.trace ++ [Event.blurCall, Event.asynError Fn.blur] },
        outArray := outArray } := by
  simp [blur, emit, getIntegerParam, h]

theorem blur_accept_trace (env : Env) (s : Plugin) (inArray outArray : NDArray)
    (arrayInfo : NDArrayInfo_t)
    (h : ¬ (s.params Param.NDPluginBlurKernelWidth ≤ 0 ∧
      s.params Param.NDPluginBlurKernelHeight ≤ 0)) :
    (blur env s inArray outArray arrayInfo).state.trace =
      s.trace ++ ([Event.blurCall] ++
        kernelWrite Param.NDPluginBlurKernelWidth (s.params Param.NDPluginBlurKernelWidth) ++
        kernelWrite Param.NDPluginBlurKernelHeight (s.params Param.NDPluginBlurKernelHeight) ++
        [Event.doBlurCall (oddKernel (s.params Param.NDPluginBlurKernelWidth))
          (oddKernel (s.params Param.NDPluginBlurKernelHeight))
          (s.params Param.NDPluginBlurBlurType_)] ++
        (doBlur env.cv inArray outArray arrayInfo
          (oddKernel (s.params Param.NDPluginBlurKernelWidth))
          (oddKernel (s.params Param.NDPluginBlurKernelHeight))
          (s.params Param.NDPluginBlurBlurType_)).printed) := by
  unfold blur
  simp only [emit, getIntegerParam, if_neg h, kernelWrite, oddKernel]
  by_cases hw : (s.params Param.NDPluginBlurKernelWidth).tmod 2 = 0 <;>
    by_cases hh : (s.params Param.NDPluginBlurKernelHeight).tmod 2 = 0 <;>
    simp [hw, hh, setIntegerParam]

theorem blur_accept_params (env : Env) (s : Plugin) (inArray outArray : NDArray)
    (arrayInfo : NDArrayInfo_t)
    (h : ¬ (s.params Param.NDPluginBlurKernelWidth ≤ 0 ∧
      s.params Param.NDPluginBlurKernelHeight ≤ 0)) (p : Param) :
    (blur env s inArray outArray arrayInfo).state.params p =
      if p = Param.NDPluginBlurKernelHeight then
        oddKernel (s.params Param.NDPluginBlurKernelHeight)
      else if p = Param.NDPluginBlurKernelWidth then
        oddKernel (s.params Param.NDPluginBlurKernelWidth)
      else s.params p := by
  unfold blur
  simp only [emit, getIntegerParam, if_neg h, oddKernel]
  by_cases hw : (s.params Param.NDPluginBlurKernelWidth).tmod 2 = 0 <;>
    by_cases hh : (s.params Param.NDPluginBlurKernelHeight).tmod 2 = 0 <;>
    by_cases h1 : p = Param.NDPluginBlurKernelHeight <;>
    by_cases h2 : p = Param.NDPluginBlurKernelWidth <;>
    simp_all [setIntegerParam]

theorem blur_accept_outArray (env : Env) (s : Plugin) (inArray outArray : NDArray)
    (arrayInfo : NDArrayInfo_t)
    (h : ¬ (s.params Param.NDPluginBlurKernelWidth ≤ 0 ∧
      s.params Param.NDPluginBlurKernelHeight ≤ 0)) :
    (blur env s inArray outArray arrayInfo).outArray =
      (doBlur env.cv inArray outArray arrayInfo
          (oddKernel (s.params Param.NDPluginBlurKernelWidth))
          (oddKernel (s.params Param.NDPluginBlurKernelHeight))
          (s.params Param.NDPluginBlurBlurType_)).outArray := by
  unfold blur
  simp only [emit, getIntegerParam, if_neg h, oddKernel]

theorem doBlur_printed_cases (cv : OpenCV) (inArray outArray : NDArray)
    (arrayInfo : NDArrayInfo_t) (kw kh bt : Int) :
    (doBlur cv inArray outArray arrayInfo kw kh bt).printed = [] ∨
      ∃ what, (doBlur cv inArray outArray arrayInfo kw kh bt).printed =
        [Event.cvException bt what] := by
  have key : ∀ (n : Nat) (b : List Byte) (r : Except String Mat),
      (tryFilter bt n b r).2 = [] ∨ ∃ what, (tryFilter bt n b r).2 = [Event.cvException bt what] := by
    intro n b r
    cases r with
    | error e => exact Or.inr ⟨e, rfl⟩
    | ok m => exact Or.inl rfl
  unfold doBlur
  simp only
  split_ifs
  · exact Or.inl rfl
  · exact key _ _ _
  · exact key _ _ _
  · exact key _ _ _
  · exact key _ _ _
  · exact Or.inl rfl

theorem doBlurCalls_printed (cv : OpenCV) (inArray outArray : NDArray)
    (arrayInfo : NDArrayInfo_t) (kw kh bt : Int) :
    doBlurCalls (doBlur cv inArray outArray arrayInfo kw kh bt).printed = [] := by
  rcases doBlur_printed_cases cv inArray outArray arrayInfo kw kh bt with h | ⟨what, h⟩ <;>
    simp [h, doBlurCalls]

theorem paramWrites_printed (cv : OpenCV) (inArray outArray : NDArray)
    (arrayInfo : NDArrayInfo_t) (kw kh bt : Int) :
    paramWrites (doBlur cv inArray outArray arrayInfo kw kh bt).printed = [] := by
  rcases doBlur_printed_cases cv inArray outArray arrayInfo kw kh bt with h | ⟨what, h⟩ <;>
    simp [h, paramWrites]

theorem asynErrors_printed (cv : OpenCV) (inArray outArray : NDArray)
    (arrayInfo : NDArrayInfo_t) (kw kh bt : Int) :
    asynErrors (doBlur cv inArray outArray arrayInfo kw kh bt).printed = [] := by
  rcases doBlur_printed_cases cv inArray outArray arrayInfo kw kh bt with h | ⟨what, h⟩ <;>
    simp [h, asynErrors]

theorem outputFrames_printed (cv : OpenCV) (inArray outArray : NDArray)
    (arrayInfo : NDArrayInfo_t) (kw kh bt : Int) :
    outputFrames (doBlur cv inArray outArray arrayInfo kw kh bt).printed = [] := by
  rcases doBlur_printed_cases cv inArray outArray arrayInfo kw kh bt with h | ⟨what, h⟩ <;>
    simp [h, outputFrames]

theorem blurCalls_printed (cv : OpenCV) (inArray outArray : NDArray)
    (arrayInfo : NDArrayInfo_t) (kw kh bt : Int) :
    blurCalls (doBlur cv inArray outArray arrayInfo kw kh bt).printed = 0 := by
  rcases doBlur_printed_cases cv inArray outArray arrayInfo kw kh bt with h | ⟨what, h⟩ <;>
    simp [h, blurCalls]

theorem blur_accept_doBlurCalls (env : Env) (s : Plugin) (inArray outArray : NDArray)
    (arrayInfo : NDArrayInfo_t)
    (h : ¬ (s.params Param.NDPluginBlurKernelWidth ≤ 0 ∧
      s.params Param.NDPluginBlurKernelHeight ≤ 0)) :
    doBlurCalls (newEvents s (blur env s inArray outArray arrayInfo).state) =
      [(oddKernel (s.params Param.NDPluginBlurKernelWidth),
        oddKernel (s.params Param.NDPluginBlurKernelHeight),
        s.params Param.NDPluginBlurBlurType_)] := by
  have hp := doBlurCalls_printed env.cv inArray outArray arrayInfo
    (oddKernel (s.params Param.NDPluginBlurKernelWidth))
    (oddKernel (s.params Param.NDPluginBlurKernelHeight))
    (s.params Param.NDPluginBlurBlurType_)
  unfold newEvents
  rw [blur_accept_trace env s inArray outArray arrayInfo h, List.drop_left]
  unfold doBlurCalls at hp ⊢
  simp only [List.filterMap_append, hp, kernelWrite]
  split_ifs <;> simp

theorem blur_accept_asynErrors (env : Env) (s : Plugin) (inArray outArray : NDArray)
    (arrayInfo : NDArrayInfo_t)
    (h : ¬ (s.params Param.NDPluginBlurKernelWidth ≤ 0 ∧
      s.params Param.NDPluginBlurKernelHeight ≤ 0)) :
    asynErrors (newEvents s (blur env s inArray outArray arrayInfo).state) = [] := by
  have hp := asynErrors_printed env.cv inArray outArray arrayInfo
    (oddKernel (s.params Param.NDPluginBlurKernelWidth))
    (oddKernel (s.params Param.NDPluginBlurKernelHeight))
    (s.params Param.NDPluginBlurBlurType_)
  unfold newEvents
  rw [blur_accept_trace env s inArray outArray arrayInfo h, List.drop_left]
  unfold asynErrors at hp ⊢
  simp only [List.filterMap_append, hp, kernelWrite]
  split_ifs <;> simp

theorem blur_accept_paramWrites (env : Env) (s : Plugin) (inArray outArray : NDArray)
    (arrayInfo : NDArrayInfo_t)
    (h : ¬ (s.params Param.NDPluginBlurKernelWidth ≤ 0 ∧
      s.params Param.NDPluginBlurKernelHeight ≤ 0)) :
    paramWrites (newEvents s (blur env s inArray outArray arrayInfo).state) =
      (if (s.params Param.NDPluginBlurKernelWidth).tmod 2 = 0 then
        [(Param.NDPluginBlurKernelWidth, oddKernel (s.params Param.NDPluginBlurKernelWidth))]
        else []) ++
      (if (s.params Param.NDPluginBlurKernelHeight).tmod 2 = 0 then
        [(Param.NDPluginBlurKernelHeight, oddKernel (s.params Param.NDPluginBlurKernelHeight))]
        else []) := by
  have hp := paramWrites_printed env.cv inArray outArray arrayInfo
    (oddKernel (s.params Param.NDPluginBlurKernelWidth))
    (oddKernel (s.params Param.NDPluginBlurKernelHeight))
    (s.params Param.NDPluginBlurBlurType_)
  unfold newEvents
  rw [blur_accept_trace env s inArray outArray arrayInfo h, List.drop_left]
  unfold paramWrites at hp ⊢
  simp only [List.filterMap_append, hp, kernelWrite]
  split_ifs <;> simp

theorem blur_reject_newEvents (env : Env) (s : Plugin) (inArray outArray : NDArray)
    (arrayInfo : NDArrayInfo_t)
    (h : s.params Param.NDPluginBlurKernelWidth ≤ 0 ∧
      s.params Param.NDPluginBlurKernelHeight ≤ 0) :
    newEvents s (blur env s inArray outArray arrayInfo).state =
      [Event.blurCall, Event.asynError Fn.blur] := by
  unfold newEvents
  rw [blur_reject env s inArray outArray arrayInfo h]
  simp

/-! ## Kernel normalisation and the guard of `blur` -/

/-- C1. For every pair of positive 32-bit integers `(w, h)` in the parameter
store, `blur` hands exactly one pair `(w', h')` to `doBlur`; both are odd,
`w ≤ w'` and `h ≤ h'`, each equals its input when the input is odd and the
input plus one (as an integer, inside the 32-bit range, so nothing overflowed)
when the input is even, and `blur` on any store holding `(w', h')` hands
`(w', h')` to `doBlur` again. -/
theorem blur_kernel_normalisation (env : Env) (s : Plugin) (inArray outArray : NDArray)
    (arrayInfo : NDArrayInfo_t) (w h : Int)
    (hw : 0 < w ∧ isInt32 w) (hh : 0 < h ∧ isInt32 h)
    (hsw : s.params Param.NDPluginBlurKernelWidth = w)
    (hsh : s.params Param.NDPluginBlurKernelHeight = h) :
    ∃ w' h' : Int,
      doBlurCalls (newEvents s (blur env s inArray outArray arrayInfo).state) =
          [(w', h', s.params Param.NDPluginBlurBlurType_)] ∧
        Odd w' ∧ Odd h' ∧ w ≤ w' ∧ h ≤ h' ∧
        (Odd w → w' = w) ∧ (Even w → w' = w + 1) ∧
        (Odd h → h' = h) ∧ (Even h → h' = h + 1) ∧
        isInt32 w' ∧ isInt32 h' ∧
        ∀ (s2 : Plugin) (in2 out2 : NDArray) (info2 : NDArrayInfo_t),
          s2.params Param.NDPluginBlurKernelWidth = w' →
          s2.params Param.NDPluginBlurKernelHeight = h' →
          doBlurCalls (newEvents s2 (blur env s2 in2 out2 info2).state) =
            [(w', h', s2.params Param.NDPluginBlurBlurType_)] := by
  have hacc : ¬ (s.params Param.NDPluginBlurKernelWidth ≤ 0 ∧
      s.params Param.NDPluginBlurKernelHeight ≤ 0) := by
    rw [hsw]; omega
  obtain ⟨w1, w2, w3, w4, w5⟩ := oddKernel_spec hw.2
  obtain ⟨h1, h2, h3, h4, h5⟩ := oddKernel_spec hh.2
  refine ⟨oddKernel w, oddKernel h, ?_, Int.odd_iff.2 w1, Int.odd_iff.2 h1, w3, h3,
    fun o => w4 (Int.odd_iff.1 o), fun e => w5 (Int.even_iff.1 e),
    fun o => h4 (Int.odd_iff.1 o), fun e => h5 (Int.even_iff.1 e), w2, h2, ?_⟩
  · rw [blur_accept_doBlurCalls env s inArray outArray arrayInfo hacc, hsw, hsh]
  · intro s2 in2 out2 info2 e1 e2
    have hacc2 : ¬ (s2.params Param.NDPluginBlurKernelWidth ≤ 0 ∧
        s2.params Param.NDPluginBlurKernelHeight ≤ 0) := by
      rw [e1]; omega
    rw [blur_accept_doBlurCalls env s2 in2 out2 info2 hacc2, e1, e2,
      oddKernel_of_odd w1, oddKernel_of_odd h1]

/-- Witness for C1: with stored kernel `(2, 5)` and mode 2, `doBlur` is called
once, with `(3, 5, 2)`. -/
theorem blur_kernel_normalisation_witness :
    ((0 : Int) < 2 ∧ isInt32 2) ∧ ((0 : Int) < 5 ∧ isInt32 5) ∧
      doBlurCalls (newEvents (pluginWith 2 5 2)
        (blur (demoEnv cvConst) (pluginWith 2 5 2) frame1D scratch
          (demoInfo frame1D)).state) = [(3, 5, 2)] := by
  refine ⟨by decide, by decide, ?_⟩
  obtain ⟨w', h', hc, -, -, -, -, -, hwe, hho, -⟩ :=
    blur_kernel_normalisation (demoEnv cvConst) (pluginWith 2 5 2) frame1D scratch
      (demoInfo frame1D) 2 5 (by decide) (by decide) rfl rfl
  rw [hc, hwe (by decide), hho (by decide)]
  rfl

/-- C6. The call `blur` rejects (reports its error, does not call `doBlur`,
leaves the parameter store unchanged) exactly when the stored width and height
are both non-positive; a pair with exactly one non-positive member is not
rejected: no error is reported and `doBlur` is called once. -/
theorem blur_rejects_iff (env : Env) (s : Plugin) (inArray outArray : NDArray)
    (arrayInfo : NDArrayInfo_t) :
    ((Fn.blur ∈ asynErrors (newEvents s (blur env s inArray outArray arrayInfo).state) ∧
        doBlurCalls (newEvents s (blur env s inArray outArray arrayInfo).state) = [] ∧
        (blur env s inArray outArray arrayInfo).state.params = s.params) ↔
      (s.params Param.NDPluginBlurKernelWidth ≤ 0 ∧
        s.params Param.NDPluginBlurKernelHeight ≤ 0)) ∧
    (((s.params Param.NDPluginBlurKernelWidth ≤ 0 ∧
          0 < s.params Param.NDPluginBlurKernelHeight) ∨
        (0 < s.params Param.NDPluginBlurKernelWidth ∧
          s.params Param.NDPluginBlurKernelHeight ≤ 0)) →
      asynErrors (newEvents s (blur env s inArray outArray arrayInfo).state) = [] ∧
      ∃ w' h', doBlurCalls (newEvents s (blur env s inArray outArray arrayInfo).state) =
        [(w', h', s.params Param.NDPluginBlurBlurType_)]) := by
  constructor
  · constructor
    · rintro ⟨he, -, -⟩
      by_contra hacc
      rw [blur_accept_asynErrors env s inArray outArray arrayInfo hacc] at he
      simp at he
    · intro hrej
      rw [blur_reject_newEvents env s inArray outArray arrayInfo hrej,
        blur_reject env s inArray outArray arrayInfo hrej]
      simp [asynErrors, doBlurCalls]
  · intro hone
    have hacc : ¬ (s.params Param.NDPluginBlurKernelWidth ≤ 0 ∧
        s.params Param.NDPluginBlurKernelHeight ≤ 0) := by omega
    exact ⟨blur_accept_asynErrors env s inArray outArray arrayInfo hacc, _, _,
      blur_accept_doBlurCalls env s inArray outArray arrayInfo hacc⟩

/-- Witness for C6: the stored pair `(0, 5)` has one non-positive member; no
error is reported and `doBlur` is called with `(1, 5)`. -/
theorem blur_rejects_iff_witness :
    ((pluginWith 0 5 1).params Param.NDPluginBlurKernelWidth ≤ 0 ∧
      0 < (pluginWith 0 5 1).params Param.NDPluginBlurKernelHeight) ∧
    asynErrors (newEvents (pluginWith 0 5 1)
      (blur (demoEnv cvConst) (pluginWith 0 5 1) frame1D scratch
        (demoInfo frame1D)).state) = [] ∧
    doBlurCalls (newEvents (pluginWith 0 5 1)
      (blur (demoEnv cvConst) (pluginWith 0 5 1) frame1D scratch
        (demoInfo frame1D)).state) = [(1, 5, 1)] :=
  ⟨by decide,
    ((blur_rejects_iff (demoEnv cvConst) (pluginWith 0 5 1) frame1D scratch
      (demoInfo frame1D)).2 (Or.inl (by decide))).1,
    by decide⟩

/-- C7. For every pair of 32-bit integers in the parameter store that `blur`
does not reject, after `blur` the stored width and height are odd, lie in the
32-bit range and are the values passed to `doBlur`; every other parameter,
the mode included, is unchanged; and `blur` on the resulting store writes no
parameter. -/
theorem blur_persists_odd (env : Env) (s : Plugin) (inArray outArray : NDArray)
    (arrayInfo : NDArrayInfo_t) (in2 out2 : NDArray) (info2 : NDArrayInfo_t)
    (hw : isInt32 (s.params Param.NDPluginBlurKernelWidth))
    (hh : isInt32 (s.params Param.NDPluginBlurKernelHeight))
    (hacc : ¬ (s.params Param.NDPluginBlurKernelWidth ≤ 0 ∧
      s.params Param.NDPluginBlurKernelHeight ≤ 0)) :
    Odd ((blur env s inArray outArray arrayInfo).state.params Param.NDPluginBlurKernelWidth) ∧
    Odd ((blur env s inArray outArray arrayInfo).state.params Param.NDPluginBlurKernelHeight) ∧
    isInt32
      ((blur env s inArray outArray arrayInfo).state.params Param.NDPluginBlurKernelWidth) ∧
    isInt32
      ((blur env s inArray outArray arrayInfo).state.params Param.NDPluginBlurKernelHeight) ∧
    doBlurCalls (newEvents s (blur env s inArray outArray arrayInfo).state) =
      [((blur env s inArray outArray arrayInfo).state.params Param.NDPluginBlurKernelWidth,
        (blur env s inArray outArray arrayInfo).state.params Param.NDPluginBlurKernelHeight,
        s.params Param.NDPluginBlurBlurType_)] ∧
    (∀ p : Param, p ≠ Param.NDPluginBlurKernelWidth → p ≠ Param.NDPluginBlurKernelHeight →
      (blur env s inArray outArray arrayInfo).state.params p = s.params p) ∧
    paramWrites (newEvents (blur env s inArray outArray arrayInfo).state
      (blur env (blur env s inArray outArray arrayInfo).state in2 out2 info2).state) = [] := by
  obtain ⟨w1, w2, w3, -, -⟩ := oddKernel_spec hw
  obtain ⟨h1, h2, h3, -, -⟩ := oddKernel_spec hh
  have pw := blur_accept_params env s inArray outArray arrayInfo hacc
    Param.NDPluginBlurKernelWidth
  have ph := blur_accept_params env s inArray outArray arrayInfo hacc
    Param.NDPluginBlurKernelHeight
  simp only [if_true, if_false, reduceCtorEq] at pw ph
  rw [pw, ph]
  refine ⟨Int.odd_iff.2 w1, Int.odd_iff.2 h1, w2, h2,
    blur_accept_doBlurCalls env s inArray outArray arrayInfo hacc, ?_, ?_⟩
  · intro p hp1 hp2
    rw [blur_accept_params env s inArray outArray arrayInfo hacc p]
    simp [hp1, hp2]
  · have hacc2 : ¬ ((blur env s inArray outArray arrayInfo).state.params
          Param.NDPluginBlurKernelWidth ≤ 0 ∧
        (blur env s inArray outArray arrayInfo).state.params
          Param.NDPluginBlurKernelHeight ≤ 0) := by
      rw [pw, ph]; omega
    rw [blur_accept_paramWrites env _ in2 out2 info2 hacc2, pw, ph]
    have e1 : ¬ (oddKernel (s.params Param.NDPluginBlurKernelWidth)).tmod 2 = 0 := by
      rw [tmod_two_eq_zero_iff]; omega
    have e2 : ¬ (oddKernel (s.params Param.NDPluginBlurKernelHeight)).tmod 2 = 0 := by
      rw [tmod_two_eq_zero_iff]; omega
    simp [e1, e2]

/-- Witness for C7: the stored pair `(2, 3)` is accepted and becomes `(3, 3)`,
the mode stays 2, and a second `blur` writes nothing. -/
theorem blur_persists_odd_witness :
    isInt32 ((pluginWith 2 3 2).params Param.NDPluginBlurKernelWidth) ∧
    isInt32 ((pluginWith 2 3 2).params Param.NDPluginBlurKernelHeight) ∧
    ¬ ((pluginWith 2 3 2).params Param.NDPluginBlurKernelWidth ≤ 0 ∧
      (pluginWith 2 3 2).params Param.NDPluginBlurKernelHeight ≤ 0) ∧
    (blur (demoEnv cvConst) (pluginWith 2 3 2) frame1D scratch
      (demoInfo frame1D)).state.params Param.NDPluginBlurKernelWidth = 3 ∧
    (blur (demoEnv cvConst) (pluginWith 2 3 2) frame1D scratch
      (demoInfo frame1D)).state.params Param.NDPluginBlurKernelHeight = 3 ∧
    (blur (demoEnv cvConst) (pluginWith 2 3 2) frame1D scratch
      (demoInfo frame1D)).state.params Param.NDPluginBlurBlurType_ = 2 ∧
    paramWrites (newEvents
      (blur (demoEnv cvConst) (pluginWith 2 3 2) frame1D scratch (demoInfo frame1D)).state
      (blur (demoEnv cvConst)
        (blur (demoEnv cvConst) (pluginWith 2 3 2) frame1D scratch (demoInfo frame1D)).state
        frame1D scratch (demoInfo frame1D)).state) = [] :=
  ⟨by decide, by decide, by decide, by decide, by decide, by decide,
    (blur_persists_odd (demoEnv cvConst) (pluginWith 2 3 2) frame1D scratch
      (demoInfo frame1D) frame1D scratch (demoInfo frame1D)
      (by decide) (by decide) (by decide)).2.2.2.2.2.2⟩

/-! ## Lemmas on `memcpy` and `doBlur` -/

theorem copyBytes_of_fits {arrayInfo : NDArrayInfo_t}
    (hfit : 4 * arrayInfo.nElements < 18446744073709551616) :
    copyBytes arrayInfo = 4 * arrayInfo.nElements := by
  unfold copyBytes sizeMul sizeofFloat
  rw [Nat.mul_comm, Nat.mod_eq_of_lt hfit]

theorem memcpy_full {dst src : List Byte} {n : Nat} (hs : src.length = n)
    (hd : dst.length = n) : memcpy dst src n = src := by
  unfold memcpy
  rw [List.take_of_length_le (le_of_eq hs), List.drop_of_length_le (le_of_eq hd),
    List.append_nil]

theorem memcpy_over {dst src : List Byte} {n : Nat} (hd : dst.length = n) :
    memcpy dst src n = src.take n := by
  unfold memcpy
  rw [List.drop_of_length_le (le_of_eq hd), List.append_nil]

theorem doBlur_unfiltered_eq (cv : OpenCV) (inArray outArray : NDArray)
    (arrayInfo : NDArrayInfo_t) (kw kh bt : Int)
    (hbt : bt = None ∨ ¬ (1 ≤ bt ∧ bt ≤ 4)) :
    doBlur cv inArray outArray arrayInfo kw kh bt =
      { inArray := inArray,
        outArray := { outArray with
          pData := memcpy outArray.pData inArray.pData (copyBytes arrayInfo) },
        printed := [] } := by
  unfold doBlur
  simp only [None, NormalizedBlock, Gaussian, Median, Bilateral] at hbt ⊢
  by_cases h0 : bt = 0
  · simp [h0]
  · have h1 : bt ≠ 1 := by omega
    have h2 : bt ≠ 2 := by omega
    have h3 : bt ≠ 3 := by omega
    have h4 : bt ≠ 4 := by omega
    simp [h0, h1, h2, h3, h4]

theorem doBlur_filter_eq (cv : OpenCV) (inArray outArray : NDArray)
    (arrayInfo : NDArrayInfo_t) (kw kh bt : Int) (r : Except String Mat)
    (hcall : filterCall cv (inImgOf cv inArray arrayInfo) kw kh bt = some r) :
    doBlur cv inArray outArray arrayInfo kw kh bt =
      { inArray := inArray,
        outArray := { outArray with
          pData := (tryFilter bt (copyBytes arrayInfo)
            (memcpy outArray.pData inArray.pData (copyBytes arrayInfo)) r).1 },
        printed := (tryFilter bt (copyBytes arrayInfo)
            (memcpy outArray.pData inArray.pData (copyBytes arrayInfo)) r).2 } := by
  unfold filterCall at hcall
  unfold doBlur
  simp only [None, NormalizedBlock, Gaussian, Median, Bilateral] at hcall ⊢
  by_cases h1 : bt = 1
  · subst h1
    simp at hcall
    simp [hcall]
  by_cases h2 : bt = 2
  · subst h2
    simp at hcall
    simp [hcall]
  by_cases h3 : bt = 3
  · subst h3
    simp at hcall
    simp [hcall]
  by_cases h4 : bt = 4
  · subst h4
    simp at hcall
    simp [hcall]
  simp [h1, h2, h3, h4] at hcall

/-! ## The baseline copy of `doBlur` -/

/-- C2. For input and output buffers holding `nElements` float32 samples
(`4 * nElements` bytes, a size that fits `size_t`) and every `blurType` that is
`None` or lies outside `1..4`, after `doBlur` the output buffer equals the input
buffer byte for byte, whatever the kernel width and height; the input array is
returned untouched, the other fields of the output array are unchanged and
nothing is printed. -/
theorem doBlur_baseline (cv : OpenCV) (inArray outArray : NDArray)
    (arrayInfo : NDArrayInfo_t) (kernelWidth kernelHeight blurType : Int)
    (hin : inArray.pData.length = 4 * arrayInfo.nElements)
    (hout : outArray.pData.length = 4 * arrayInfo.nElements)
    (hfit : 4 * arrayInfo.nElements < 18446744073709551616)
    (hbt : blurType = None ∨ ¬ (1 ≤ blurType ∧ blurType ≤ 4)) :
    (doBlur cv inArray outArray arrayInfo kernelWidth kernelHeight blurType).outArray.pData =
        inArray.pData ∧
      (doBlur cv inArray outArray arrayInfo kernelWidth kernelHeight blurType).inArray =
        inArray ∧
      (doBlur cv inArray outArray arrayInfo kernelWidth kernelHeight blurType).outArray =
        { outArray with pData := inArray.pData } ∧
      (doBlur cv inArray outArray arrayInfo kernelWidth kernelHeight blurType).printed = [] := by
  rw [doBlur_unfiltered_eq cv inArray outArray arrayInfo kernelWidth kernelHeight blurType hbt,
    copyBytes_of_fits hfit, memcpy_full hin hout]
  exact ⟨rfl, rfl, rfl, rfl⟩

/-- Witness for C2: mode 7 on a two-sample buffer copies the eight input bytes. -/
theorem doBlur_baseline_witness :
    frame1D.pData.length = 4 * (demoInfo frame1D).nElements ∧
    scratch.pData.length = 4 * (demoInfo frame1D).nElements ∧
    4 * (demoInfo frame1D).nElements < 18446744073709551616 ∧
    ((7 : Int) = None ∨ ¬ (1 ≤ (7 : Int) ∧ (7 : Int) ≤ 4)) ∧
    (doBlur cvConst frame1D scratch (demoInfo frame1D) 3 5 7).outArray.pData =
      [0, 0, 128, 63, 0, 0, 0, 64] :=
  ⟨by decide, by decide, by decide, by decide,
    (doBlur_baseline cvConst frame1D scratch (demoInfo frame1D) 3 5 7
      (by decide) (by decide) (by decide) (by decide)).1⟩

/-! ## Mode dispatch of `doBlur` -/

theorem doBlur_ok (cv : OpenCV) (inArray outArray : NDArray)
    (arrayInfo : NDArrayInfo_t) (kw kh bt : Int) (res : Mat)
    (hin : inArray.pData.length = 4 * arrayInfo.nElements)
    (hout : outArray.pData.length = 4 * arrayInfo.nElements)
    (hfit : 4 * arrayInfo.nElements < 18446744073709551616)
    (hcall : filterCall cv (inImgOf cv inArray arrayInfo) kw kh bt = some (Except.ok res)) :
    (doBlur cv inArray outArray arrayInfo kw kh bt).outArray.pData =
      res.data.take (4 * arrayInfo.nElements) := by
  rw [doBlur_filter_eq cv inArray outArray arrayInfo kw kh bt _ hcall, copyBytes_of_fits hfit]
  simp only [tryFilter]
  apply memcpy_over
  unfold memcpy
  simp only [List.length_append, List.length_take, List.length_drop]
  omega

/-- C8. With the four smoothing capabilities abstract, whenever the capability
selected by the mode succeeds with an image `res` (holding at least `nElements`
samples), the output buffer of `doBlur` is the first `nElements` float32 samples
of `res`, the capability having been called on `inImgOf` as
`blur (kernelWidth, kernelHeight) (-1, -1)` for NormalizedBlock,
`GaussianBlur (kernelWidth, kernelHeight) 0 0` for Gaussian, `medianBlur kernelWidth`
for Median and `bilateralFilter kernelWidth 5 5` for Bilateral.  The image has
`(int) numRows` rows and `(int) rowSize` columns and starts with the input's
samples (it is exactly the input when the image has `nElements` samples).  For
Median and Bilateral two runs that differ only in `kernelHeight` give the same
result. -/
theorem doBlur_dispatch (cv : OpenCV) (inArray outArray : NDArray)
    (arrayInfo : NDArrayInfo_t) (kernelWidth kernelHeight : Int) (res : Mat)
    (hin : inArray.pData.length = 4 * arrayInfo.nElements)
    (hout : outArray.pData.length = 4 * arrayInfo.nElements)
    (hfit : 4 * arrayInfo.nElements < 18446744073709551616)
    (hres : 4 * arrayInfo.nElements ≤ res.data.length) :
    (cv.blur (inImgOf cv inArray arrayInfo) (kernelWidth, kernelHeight) (-1, -1) =
        Except.ok res →
      (doBlur cv inArray outArray arrayInfo kernelWidth kernelHeight
        NormalizedBlock).outArray.pData = res.data.take (4 * arrayInfo.nElements)) ∧
    (cv.GaussianBlur (inImgOf cv inArray arrayInfo) (kernelWidth, kernelHeight) 0 0 =
        Except.ok res →
      (doBlur cv inArray outArray arrayInfo kernelWidth kernelHeight
        Gaussian).outArray.pData = res.data.take (4 * arrayInfo.nElements)) ∧
    (cv.medianBlur (inImgOf cv inArray arrayInfo) kernelWidth = Except.ok res →
      (doBlur cv inArray outArray arrayInfo kernelWidth kernelHeight
        Median).outArray.pData = res.data.take (4 * arrayInfo.nElements)) ∧
    (cv.bilateralFilter (inImgOf cv inArray arrayInfo) kernelWidth 5 5 = Except.ok res →
      (doBlur cv inArray outArray arrayInfo kernelWidth kernelHeight
        Bilateral).outArray.pData = res.data.take (4 * arrayInfo.nElements)) ∧
    (∀ kernelHeight2 : Int,
      doBlur cv inArray outArray arrayInfo kernelWidth kernelHeight2 Median =
        doBlur cv inArray outArray arrayInfo kernelWidth kernelHeight Median) ∧
    (∀ kernelHeight2 : Int,
      doBlur cv inArray outArray arrayInfo kernelWidth kernelHeight2 Bilateral =
        doBlur cv inArray outArray arrayInfo kernelWidth kernelHeight Bilateral) ∧
    (inImgOf cv inArray arrayInfo).rows = wrap32 (inArray.dims.getD arrayInfo.yDim 0 : Nat) ∧
    (inImgOf cv inArray arrayInfo).cols = wrap32 (inArray.dims.getD arrayInfo.xDim 0 : Nat) ∧
    (inImgOf cv inArray arrayInfo).data.take (4 * arrayInfo.nElements) = inArray.pData ∧
    ((cv.fresh (inImgOf cv inArray arrayInfo).rows (inImgOf cv inArray arrayInfo).cols).length =
        4 * arrayInfo.nElements →
      (inImgOf cv inArray arrayInfo).data = inArray.pData) := by
  have _ := hres
  refine ⟨fun h => ?_, fun h => ?_, fun h => ?_, fun h => ?_, fun _ => rfl, fun _ => rfl,
    rfl, rfl, ?_, fun hf => ?_⟩
  · exact doBlur_ok cv inArray outArray arrayInfo _ _ _ res hin hout hfit
      (by simp [filterCall, NormalizedBlock, h])
  · exact doBlur_ok cv inArray outArray arrayInfo _ _ _ res hin hout hfit
      (by simp [filterCall, NormalizedBlock, Gaussian, h])
  · exact doBlur_ok cv inArray outArray arrayInfo _ _ _ res hin hout hfit
      (by simp [filterCall, NormalizedBlock, Gaussian, Median, h])
  · exact doBlur_ok cv inArray outArray arrayInfo _ _ _ res hin hout hfit
      (by simp [filterCall, NormalizedBlock, Gaussian, Median, Bilateral, h])
  · simp only [inImgOf, copyBytes_of_fits hfit, memcpy]
    rw [List.take_of_length_le (le_of_eq hin), List.take_left' hin]
  · simp only [inImgOf, copyBytes_of_fits hfit] at hf ⊢
    exact memcpy_full hin hf

/-- Witness for C8: on the 2 x 1 frame with width 3 the box filter of `cvConst`
succeeds with `constImage`, and `doBlur` outputs its eight bytes. -/
theorem doBlur_dispatch_witness :
    frame2D.pData.length = 4 * (demoInfo frame2D).nElements ∧
    scratch.pData.length = 4 * (demoInfo frame2D).nElements ∧
    4 * (demoInfo frame2D).nElements < 18446744073709551616 ∧
    4 * (demoInfo frame2D).nElements ≤ constImage.data.length ∧
    cvConst.blur (inImgOf cvConst frame2D (demoInfo frame2D)) (3, 5) (-1, -1) =
      Except.ok constImage ∧
    (doBlur cvConst frame2D scratch (demoInfo frame2D) 3 5 NormalizedBlock).outArray.pData =
      [3, 3, 3, 3, 3, 3, 3, 3] :=
  ⟨by decide, by decide, by decide, by decide, rfl,
    (doBlur_dispatch cvConst frame2D scratch (demoInfo frame2D) 3 5 constImage
      (by decide) (by decide) (by decide) (by decide)).1 rfl⟩

/-! ## The size of the baseline copy -/

/-- C9 as stated fails: for a frame with one 8-bit sample, `nElements *
bytesPerElement` is 1, but `doBlur` copies `copyBytes = 4` bytes: the whole
four-byte output buffer is replaced, where a one-byte copy would leave three of
its bytes in place. -/
theorem baseline_copy_count_counterexample :
    (demoInfo frameInt8).nElements * (demoInfo frameInt8).bytesPerElement = 1 ∧
    copyBytes (demoInfo frameInt8) = 4 ∧
    copyBytes (demoInfo frameInt8) ≠
      (demoInfo frameInt8).nElements * (demoInfo frameInt8).bytesPerElement ∧
    (doBlur cvConst workInt8 scratchInt8 (demoInfo frameInt8) 3 3 None).outArray.pData =
      [0, 0, 160, 64] ∧
    memcpy scratchInt8.pData workInt8.pData
      ((demoInfo frameInt8).nElements * (demoInfo frameInt8).bytesPerElement) =
      [0, 9, 9, 9] := by
  decide

/-- C9, amended. The baseline copy of `doBlur` moves `nElements * sizeof(float)`
= `4 * nElements` bytes, whatever `bytesPerElement` is: for mode `None` the
output buffer is the first `4 * nElements` input bytes followed by the output
buffer's own bytes from that offset on.  The count equals `nElements *
bytesPerElement` exactly when `bytesPerElement` is 4 or `nElements` is 0. -/
theorem baseline_copy_count (cv : OpenCV) (inArray outArray : NDArray)
    (arrayInfo : NDArrayInfo_t) (kernelWidth kernelHeight : Int)
    (hfit : 4 * arrayInfo.nElements < 18446744073709551616) :
    copyBytes arrayInfo = arrayInfo.nElements * 4 ∧
    (doBlur cv inArray outArray arrayInfo kernelWidth kernelHeight None).outArray.pData =
      inArray.pData.take (arrayInfo.nElements * 4) ++
        outArray.pData.drop (arrayInfo.nElements * 4) ∧
    (copyBytes arrayInfo = arrayInfo.nElements * arrayInfo.bytesPerElement ↔
      arrayInfo.bytesPerElement = 4 ∨ arrayInfo.nElements = 0) := by
  have hc : copyBytes arrayInfo = arrayInfo.nElements * 4 := by
    rw [copyBytes_of_fits hfit, Nat.mul_comm]
  refine ⟨hc, ?_, ?_⟩
  · rw [doBlur_unfiltered_eq cv inArray outArray arrayInfo kernelWidth kernelHeight None
      (Or.inl rfl), hc]
    rfl
  · rw [hc]
    constructor
    · intro h
      rcases Nat.eq_zero_or_pos arrayInfo.nElements with h0 | hpos
      · exact Or.inr h0
      · exact Or.inl (Nat.eq_of_mul_eq_mul_left hpos h).symm
    · rintro (h | h)
      · rw [h]
      · rw [h]; simp

/-- Witness for C9, amended: one 8-bit sample, four bytes copied. -/
theorem baseline_copy_count_witness :
    4 * (demoInfo frameInt8).nElements < 18446744073709551616 ∧
    copyBytes (demoInfo frameInt8) = (demoInfo frameInt8).nElements * 4 :=
  ⟨by decide,
    (baseline_copy_count cvConst workInt8 scratchInt8 (demoInfo frameInt8) 3 3
      (by decide)).1⟩

/-! ## Lemmas on `processCallbacks` -/

theorem atSwitch_eq (s : Plugin) (pArray : NDArray) :
    ({ unlock (if (emit s Event.baseProcessCallbacks).pArrays0.isSome then
          { emit (emit s Event.baseProcessCallbacks) Event.release with pArrays0 := none }
        else emit s Event.baseProcessCallbacks) with
      pArrays0 := some (copy pArray) } : Plugin) = atSwitch s pArray := by
  cases hp : s.pArrays0 <;> simp [emit, unlock, atSwitch, hp]

theorem processCallbacks_eq (env : Env) (s : Plugin) (pArray : NDArray) :
    processCallbacks env s pArray =
      if pArray.ndims = 1 ∨ pArray.ndims = 2 then
        emit (emit (lock (blur env (atSwitch s pArray) (convert env pArray env.NDFloat32)
            (convert env (convert env pArray env.NDFloat32) env.NDFloat32)
            (env.getInfo pArray)).state)
          (Event.doCallbacksGenericPointer (emitted env
            ((blur env (atSwitch s pArray) (convert env pArray env.NDFloat32)
              (convert env (convert env pArray env.NDFloat32) env.NDFloat32)
              (env.getInfo pArray)).state.params Param.NDDataType)
            (blur env (atSwitch s pArray) (convert env pArray env.NDFloat32)
              (convert env (convert env pArray env.NDFloat32) env.NDFloat32)
              (env.getInfo pArray)).outArray)))
          Event.callParamCallbacks
      else emit (atSwitch s pArray) (Event.asynError Fn.processCallbacks) := by
  unfold processCallbacks
  simp only [atSwitch_eq]
  rfl

theorem newEvents_of_append {before after : Plugin} {l : List Event}
    (h : after.trace = before.trace ++ l) : newEvents before after = l := by
  unfold newEvents
  rw [h, List.drop_left]

theorem blur_trace_append (env : Env) (s : Plugin) (inArray outArray : NDArray)
    (arrayInfo : NDArrayInfo_t) :
    (blur env s inArray outArray arrayInfo).state.trace =
      s.trace ++ newEvents s (blur env s inArray outArray arrayInfo).state := by
  by_cases h : s.params Param.NDPluginBlurKernelWidth ≤ 0 ∧
      s.params Param.NDPluginBlurKernelHeight ≤ 0
  · rw [blur_reject_newEvents env s inArray outArray arrayInfo h,
      blur_reject env s inArray outArray arrayInfo h]
  · have ht := blur_accept_trace env s inArray outArray arrayInfo h
    rw [newEvents_of_append ht]
    exact ht

theorem blur_outputFrames (env : Env) (s : Plugin) (inArray outArray : NDArray)
    (arrayInfo : NDArrayInfo_t) :
    outputFrames (newEvents s (blur env s inArray outArray arrayInfo).state) = [] := by
  by_cases h : s.params Param.NDPluginBlurKernelWidth ≤ 0 ∧
      s.params Param.NDPluginBlurKernelHeight ≤ 0
  · rw [blur_reject_newEvents env s inArray outArray arrayInfo h]
    rfl
  · have hp := outputFrames_printed env.cv inArray outArray arrayInfo
      (oddKernel (s.params Param.NDPluginBlurKernelWidth))
      (oddKernel (s.params Param.NDPluginBlurKernelHeight))
      (s.params Param.NDPluginBlurBlurType_)
    rw [newEvents_of_append (blur_accept_trace env s inArray outArray arrayInfo h)]
    unfold outputFrames at hp ⊢
    simp only [List.filterMap_append, hp, kernelWrite]
    split_ifs <;> simp

theorem blur_blurCalls (env : Env) (s : Plugin) (inArray outArray : NDArray)
    (arrayInfo : NDArrayInfo_t) :
    blurCalls (newEvents s (blur env s inArray outArray arrayInfo).state) = 1 := by
  by_cases h : s.params Param.NDPluginBlurKernelWidth ≤ 0 ∧
      s.params Param.NDPluginBlurKernelHeight ≤ 0
  · rw [blur_reject_newEvents env s inArray outArray arrayInfo h]
    rfl
  · have hp := blurCalls_printed env.cv inArray outArray arrayInfo
      (oddKernel (s.params Param.NDPluginBlurKernelWidth))
      (oddKernel (s.params Param.NDPluginBlurKernelHeight))
      (s.params Param.NDPluginBlurBlurType_)
    rw [newEvents_of_append (blur_accept_trace env s inArray outArray arrayInfo h)]
    unfold blurCalls at hp ⊢
    simp only [List.count_append, hp, kernelWrite]
    split_ifs <;> simp

theorem cvExceptions_blur_accept (env : Env) (s : Plugin) (inArray outArray : NDArray)
    (arrayInfo : NDArrayInfo_t)
    (h : ¬ (s.params Param.NDPluginBlurKernelWidth ≤ 0 ∧
      s.params Param.NDPluginBlurKernelHeight ≤ 0)) :
    cvExceptions (newEvents s (blur env s inArray outArray arrayInfo).state) =
      cvExceptions (doBlur env.cv inArray outArray arrayInfo
        (oddKernel (s.params Param.NDPluginBlurKernelWidth))
        (oddKernel (s.params Param.NDPluginBlurKernelHeight))
        (s.params Param.NDPluginBlurBlurType_)).printed := by
  rw [newEvents_of_append (blur_accept_trace env s inArray outArray arrayInfo h)]
  unfold cvExceptions
  simp only [List.filterMap_append, kernelWrite]
  split_ifs <;> simp

/-- The events of a cycle on a frame of rank 1 or 2. -/
theorem processCallbacks_newEvents_ok (env : Env) (s : Plugin) (pArray : NDArray)
    (hrank : pArray.ndims = 1 ∨ pArray.ndims = 2) :
    newEvents s (processCallbacks env s pArray) =
      ([Event.baseProcessCallbacks] ++ if s.pArrays0.isSome then [Event.release] else []) ++
      newEvents (atSwitch s pArray)
        (blur env (atSwitch s pArray) (convert env pArray env.NDFloat32)
          (convert env (convert env pArray env.NDFloat32) env.NDFloat32)
          (env.getInfo pArray)).state ++
      [Event.doCallbacksGenericPointer (emitted env
          ((blur env (atSwitch s pArray) (convert env pArray env.NDFloat32)
            (convert env (convert env pArray env.NDFloat32) env.NDFloat32)
            (env.getInfo pArray)).state.params Param.NDDataType)
          (blur env (atSwitch s pArray) (convert env pArray env.NDFloat32)
            (convert env (convert env pArray env.NDFloat32) env.NDFloat32)
            (env.getInfo pArray)).outArray),
        Event.callParamCallbacks] := by
  apply newEvents_of_append
  rw [processCallbacks_eq, if_pos hrank]
  simp only [emit, lock]
  rw [blur_trace_append]
  simp [atSwitch]

/-- The events of a cycle on a frame of any other rank. -/
theorem processCallbacks_newEvents_bad (env : Env) (s : Plugin) (pArray : NDArray)
    (hrank : ¬ (pArray.ndims = 1 ∨ pArray.ndims = 2)) :
    newEvents s (processCallbacks env s pArray) =
      ([Event.baseProcessCallbacks] ++ if s.pArrays0.isSome then [Event.release] else []) ++
      [Event.asynError Fn.processCallbacks] := by
  apply newEvents_of_append
  rw [processCallbacks_eq, if_neg hrank]
  simp [emit, atSwitch]

/-- The lock after a cycle: held again exactly for the frames of rank 1 or 2. -/
theorem processCallbacks_locked (env : Env) (s : Plugin) (pArray : NDArray) :
    (processCallbacks env s pArray).locked =
      decide (pArray.ndims = 1 ∨ pArray.ndims = 2) := by
  rw [processCallbacks_eq]
  by_cases hrank : pArray.ndims = 1 ∨ pArray.ndims = 2
  · rw [if_pos hrank]
    simp [emit, lock, hrank]
  · rw [if_neg hrank]
    simp [emit, atSwitch, hrank]

theorem processCallbacks_params_ok (env : Env) (s : Plugin) (pArray : NDArray)
    (hrank : pArray.ndims = 1 ∨ pArray.ndims = 2) :
    (processCallbacks env s pArray).params =
      (blur env (atSwitch s pArray) (convert env pArray env.NDFloat32)
        (convert env (convert env pArray env.NDFloat32) env.NDFloat32)
        (env.getInfo pArray)).state.params := by
  rw [processCallbacks_eq, if_pos hrank]
  rfl

/-! ## The rank gate -/

/-- C5. For a frame whose number of dimensions is neither 1 nor 2,
`processCallbacks` reports its error, enters neither `blur` nor `doBlur` and
emits no output frame; for a frame of rank 1 or 2 `blur` is entered exactly
once. -/
theorem processCallbacks_rank_gate (env : Env) (s : Plugin) (pArray : NDArray) :
    (¬ (pArray.ndims = 1 ∨ pArray.ndims = 2) →
      asynErrors (newEvents s (processCallbacks env s pArray)) = [Fn.processCallbacks] ∧
      blurCalls (newEvents s (processCallbacks env s pArray)) = 0 ∧
      doBlurCalls (newEvents s (processCallbacks env s pArray)) = [] ∧
      outputFrames (newEvents s (processCallbacks env s pArray)) = []) ∧
    ((pArray.ndims = 1 ∨ pArray.ndims = 2) →
      blurCalls (newEvents s (processCallbacks env s pArray)) = 1) := by
  constructor
  · intro hrank
    rw [processCallbacks_newEvents_bad env s pArray hrank]
    cases s.pArrays0 <;> simp [asynErrors, blurCalls, doBlurCalls, outputFrames]
  · intro hrank
    have hb := blur_blurCalls env (atSwitch s pArray) (convert env pArray env.NDFloat32)
      (convert env (convert env pArray env.NDFloat32) env.NDFloat32) (env.getInfo pArray)
    rw [processCallbacks_newEvents_ok env s pArray hrank]
    unfold blurCalls at hb ⊢
    simp only [List.count_append, hb]
    cases s.pArrays0 <;> simp

/-- Witness for C5: a three-dimensional frame is refused without output, a
one-dimensional frame reaches `blur` once. -/
theorem processCallbacks_rank_gate_witness :
    ¬ (frame3D.ndims = 1 ∨ frame3D.ndims = 2) ∧
    (frame1D.ndims = 1 ∨ frame1D.ndims = 2) ∧
    outputFrames (newEvents (pluginWith 3 3 1)
      (processCallbacks (demoEnv cvConst) (pluginWith 3 3 1) frame3D)) = [] ∧
    blurCalls (newEvents (pluginWith 3 3 1)
      (processCallbacks (demoEnv cvConst) (pluginWith 3 3 1) frame1D)) = 1 :=
  ⟨by decide, by decide,
    ((processCallbacks_rank_gate (demoEnv cvConst) (pluginWith 3 3 1) frame3D).1
      (by decide)).2.2.2,
    (processCallbacks_rank_gate (demoEnv cvConst) (pluginWith 3 3 1) frame1D).2
      (by decide)⟩

/-! ## Rejected kernel parameters -/

/-- C4 as stated fails: with stored kernel `(0, 0)` and a one-dimensional frame
the cycle reports the validation error of `blur` and still hands an output
frame to `doCallbacksGenericPointer`. -/
theorem validation_abort_counterexample :
    (pluginWith 0 0 2).params Param.NDPluginBlurKernelWidth ≤ 0 ∧
    (pluginWith 0 0 2).params Param.NDPluginBlurKernelHeight ≤ 0 ∧
    frame1D.ndims = 1 ∧
    asynErrors (newEvents (pluginWith 0 0 2)
      (processCallbacks (demoEnv cvConst) (pluginWith 0 0 2) frame1D)) = [Fn.blur] ∧
    outputFrames (newEvents (pluginWith 0 0 2)
      (processCallbacks (demoEnv cvConst) (pluginWith 0 0 2) frame1D)) = [frame1D] := by
  decide

/-- C4, amended. In a cycle on a frame of rank 1 or 2 with stored width and
height both non-positive, `blur` reports the validation error (the only error
of the cycle), `doBlur` is not called and the parameters are unchanged; the
cycle nevertheless emits exactly one output frame, the unfiltered float32
working copy converted to the configured output type. -/
theorem validation_error_still_emits (env : Env) (s : Plugin) (pArray : NDArray)
    (hrank : pArray.ndims = 1 ∨ pArray.ndims = 2)
    (hrej : s.params Param.NDPluginBlurKernelWidth ≤ 0 ∧
      s.params Param.NDPluginBlurKernelHeight ≤ 0) :
    asynErrors (newEvents s (processCallbacks env s pArray)) = [Fn.blur] ∧
    doBlurCalls (newEvents s (processCallbacks env s pArray)) = [] ∧
    (processCallbacks env s pArray).params = s.params ∧
    outputFrames (newEvents s (processCallbacks env s pArray)) =
      [emitted env (s.params Param.NDDataType)
        (convert env (convert env pArray env.NDFloat32) env.NDFloat32)] := by
  have hrej2 : (atSwitch s pArray).params Param.NDPluginBlurKernelWidth ≤ 0 ∧
      (atSwitch s pArray).params Param.NDPluginBlurKernelHeight ≤ 0 := hrej
  have hb := blur_reject env (atSwitch s pArray) (convert env pArray env.NDFloat32)
    (convert env (convert env pArray env.NDFloat32) env.NDFloat32) (env.getInfo pArray) hrej2
  have hn := blur_reject_newEvents env (atSwitch s pArray) (convert env pArray env.NDFloat32)
    (convert env (convert env pArray env.NDFloat32) env.NDFloat32) (env.getInfo pArray) hrej2
  rw [processCallbacks_params_ok env s pArray hrank,
    processCallbacks_newEvents_ok env s pArray hrank, hn, hb]
  simp only [atSwitch]
  cases s.pArrays0 <;> simp [asynErrors, doBlurCalls, outputFrames]

/-- Witness for C4, amended: stored kernel `(0, -4)`, one-dimensional frame. -/
theorem validation_error_still_emits_witness :
    (frame1D.ndims = 1 ∨ frame1D.ndims = 2) ∧
    ((pluginWith 0 (-4) 2).params Param.NDPluginBlurKernelWidth ≤ 0 ∧
      (pluginWith 0 (-4) 2).params Param.NDPluginBlurKernelHeight ≤ 0) ∧
    outputFrames (newEvents (pluginWith 0 (-4) 2)
      (processCallbacks (demoEnv cvConst) (pluginWith 0 (-4) 2) frame1D)) =
      [emitted (demoEnv cvConst) ((pluginWith 0 (-4) 2).params Param.NDDataType)
        (convert (demoEnv cvConst) (convert (demoEnv cvConst) frame1D
          (demoEnv cvConst).NDFloat32) (demoEnv cvConst).NDFloat32)] :=
  ⟨by decide, by decide,
    (validation_error_still_emits (demoEnv cvConst) (pluginWith 0 (-4) 2) frame1D
      (by decide) (by decide)).2.2.2⟩

/-! ## Containment of filter failures -/

theorem doBlur_error (cv : OpenCV) (inArray outArray : NDArray)
    (arrayInfo : NDArrayInfo_t) (kw kh bt : Int) (what : String)
    (hin : inArray.pData.length = 4 * arrayInfo.nElements)
    (hout : outArray.pData.length = 4 * arrayInfo.nElements)
    (hfit : 4 * arrayInfo.nElements < 18446744073709551616)
    (hcall : filterCall cv (inImgOf cv inArray arrayInfo) kw kh bt =
      some (Except.error what)) :
    doBlur cv inArray outArray arrayInfo kw kh bt =
      { inArray := inArray, outArray := { outArray with pData := inArray.pData },
        printed := [Event.cvException bt what] } := by
  rw [doBlur_filter_eq cv inArray outArray arrayInfo kw kh bt _ hcall, copyBytes_of_fits hfit,
    memcpy_full hin hout]
  rfl

/-- C3. First part, on `doBlur`: for buffers holding `nElements` float32 samples,
if the smoothing call made for the mode (which is then one of the four filter
modes) throws `cv::Exception`, `doBlur` returns with the output buffer equal to
the input buffer byte for byte, the input untouched and the exception message
printed.  Second part, on the cycle: for a frame of rank 1 or 2 whose kernel
`blur` accepts, if that call throws, `processCallbacks` still emits exactly one
output frame, the conversion to the output type of the array holding the input's
float32 bytes, prints the exception once, and returns with the lock held. -/
theorem filter_failure_contained :
    (∀ (cv : OpenCV) (inArray outArray : NDArray) (arrayInfo : NDArrayInfo_t)
        (kernelWidth kernelHeight blurType : Int) (what : String),
      inArray.pData.length = 4 * arrayInfo.nElements →
      outArray.pData.length = 4 * arrayInfo.nElements →
      4 * arrayInfo.nElements < 18446744073709551616 →
      filterCall cv (inImgOf cv inArray arrayInfo) kernelWidth kernelHeight blurType =
        some (Except.error what) →
      (1 ≤ blurType ∧ blurType ≤ 4) ∧
      (doBlur cv inArray outArray arrayInfo kernelWidth kernelHeight blurType).outArray.pData =
        inArray.pData ∧
      (doBlur cv inArray outArray arrayInfo kernelWidth kernelHeight blurType).outArray =
        { outArray with pData := inArray.pData } ∧
      (doBlur cv inArray outArray arrayInfo kernelWidth kernelHeight blurType).inArray =
        inArray ∧
      (doBlur cv inArray outArray arrayInfo kernelWidth kernelHeight blurType).printed =
        [Event.cvException blurType what]) ∧
    (∀ (env : Env) (s : Plugin) (pArray : NDArray) (what : String),
      (pArray.ndims = 1 ∨ pArray.ndims = 2) →
      ¬ (s.params Param.NDPluginBlurKernelWidth ≤ 0 ∧
        s.params Param.NDPluginBlurKernelHeight ≤ 0) →
      (convert env pArray env.NDFloat32).pData.length = 4 * (env.getInfo pArray).nElements →
      (convert env (convert env pArray env.NDFloat32) env.NDFloat32).pData.length =
        4 * (env.getInfo pArray).nElements →
      4 * (env.getInfo pArray).nElements < 18446744073709551616 →
      filterCall env.cv (inImgOf env.cv (convert env pArray env.NDFloat32) (env.getInfo pArray))
          (oddKernel (s.params Param.NDPluginBlurKernelWidth))
          (oddKernel (s.params Param.NDPluginBlurKernelHeight))
          (s.params Param.NDPluginBlurBlurType_) = some (Except.error what) →
      outputFrames (newEvents s (processCallbacks env s pArray)) =
        [emitted env (s.params Param.NDDataType)
          { convert env (convert env pArray env.NDFloat32) env.NDFloat32 with
            pData := (convert env pArray env.NDFloat32).pData }] ∧
      cvExceptions (newEvents s (processCallbacks env s pArray)) =
        [(s.params Param.NDPluginBlurBlurType_, what)] ∧
      (processCallbacks env s pArray).locked = true) := by
  constructor
  · intro cv inArray outArray arrayInfo kw kh bt what hin hout hfit hcall
    rw [doBlur_error cv inArray outArray arrayInfo kw kh bt what hin hout hfit hcall]
    refine ⟨?_, rfl, rfl, rfl, rfl⟩
    unfold filterCall at hcall
    simp only [NormalizedBlock, Gaussian, Median, Bilateral] at hcall
    by_contra hb
    have h1 : bt ≠ 1 := by omega
    have h2 : bt ≠ 2 := by omega
    have h3 : bt ≠ 3 := by omega
    have h4 : bt ≠ 4 := by omega
    simp [h1, h2, h3, h4] at hcall
  · intro env s pArray what hrank hacc hin hout hfit hcall
    have hacc2 : ¬ ((atSwitch s pArray).params Param.NDPluginBlurKernelWidth ≤ 0 ∧
        (atSwitch s pArray).params Param.NDPluginBlurKernelHeight ≤ 0) := hacc
    have hd := doBlur_error env.cv (convert env pArray env.NDFloat32)
      (convert env (convert env pArray env.NDFloat32) env.NDFloat32) (env.getInfo pArray)
      _ _ _ what hin hout hfit hcall
    have ho := blur_accept_outArray env (atSwitch s pArray) (convert env pArray env.NDFloat32)
      (convert env (convert env pArray env.NDFloat32) env.NDFloat32) (env.getInfo pArray) hacc2
    have hp := blur_accept_params env (atSwitch s pArray) (convert env pArray env.NDFloat32)
      (convert env (convert env pArray env.NDFloat32) env.NDFloat32) (env.getInfo pArray) hacc2
      Param.NDDataType
    have hf := blur_outputFrames env (atSwitch s pArray) (convert env pArray env.NDFloat32)
      (convert env (convert env pArray env.NDFloat32) env.NDFloat32) (env.getInfo pArray)
    have hx := cvExceptions_blur_accept env (atSwitch s pArray)
      (convert env pArray env.NDFloat32)
      (convert env (convert env pArray env.NDFloat32) env.NDFloat32) (env.getInfo pArray) hacc2
    simp only [if_false, reduceCtorEq] at hp
    have hs : (atSwitch s pArray).params = s.params := rfl
    rw [hs] at ho hp hx
    rw [hd] at ho hx
    refine ⟨?_, ?_, ?_⟩
    · rw [processCallbacks_newEvents_ok env s pArray hrank, hp, ho]
      unfold outputFrames at hf ⊢
      simp only [List.filterMap_append, hf]
      cases s.pArrays0 <;> simp
    · rw [processCallbacks_newEvents_ok env s pArray hrank]
      unfold cvExceptions at hx ⊢
      simp only [List.filterMap_append, hx]
      cases s.pArrays0 <;> simp
    · rw [processCallbacks_locked]
      simp [hrank]

/-- Witness for C3: with every OpenCV call throwing, the Gaussian mode on the
one-dimensional frame leaves the input bytes in the output buffer, and the cycle
emits the frame unfiltered. -/
theorem filter_failure_contained_witness :
    (doBlur cvFailing frame1D scratch (demoInfo frame1D) 3 3 Gaussian).outArray.pData =
      frame1D.pData ∧
    outputFrames (newEvents (pluginWith 2 3 2)
      (processCallbacks (demoEnv cvFailing) (pluginWith 2 3 2) frame1D)) = [frame1D] ∧
    cvExceptions (newEvents (pluginWith 2 3 2)
      (processCallbacks (demoEnv cvFailing) (pluginWith 2 3 2) frame1D)) =
      [(2, "bad kernel")] :=
  ⟨(filter_failure_contained.1 cvFailing frame1D scratch (demoInfo frame1D) 3 3 Gaussian
      "bad kernel" (by decide) (by decide) (by decide) rfl).2.1,
    (filter_failure_contained.2 (demoEnv cvFailing) (pluginWith 2 3 2) frame1D
      "bad kernel" (by decide) (by decide) (by decide) (by decide) (by decide) rfl).1,
    (filter_failure_contained.2 (demoEnv cvFailing) (pluginWith 2 3 2) frame1D
      "bad kernel" (by decide) (by decide) (by decide) (by decide) (by decide) rfl).2.1⟩

/-! ## The driver lock -/

/-- C10 fails on the unsupported-rank path: entered with the lock held on a
three-dimensional frame, `processCallbacks` returns through the `default`
branch without calling `lock()`, so the lock is left released; on a
one-dimensional frame it is held again. -/
theorem processCallbacks_lock_not_reacquired :
    (pluginWith 3 3 1).locked = true ∧
    ¬ (frame3D.ndims = 1 ∨ frame3D.ndims = 2) ∧
    (processCallbacks (demoEnv cvConst) (pluginWith 3 3 1) frame3D).locked = false ∧
    (processCallbacks (demoEnv cvConst) (pluginWith 3 3 1) frame1D).locked = true := by
  decide

end NDPluginBlur
